import Mathlib

/-!
# Calimate (`calimate.py`) — shallow embedding and verification

This file embeds, in Lean, the observable behaviour of the single-file
PyQt5 application `calimate.py`:

* the result table (`QTableWidget` with columns `("Test", "Result", "Notes")`,
  cells carrying a text and an optional background colour),
* `MainWindow.add_data_to_table`,
* `MainWindow.import_table_from_csv` (the CSV reader and the file system are
  modelled by an explicit `FileRead` value describing what the Python
  `open` / `csv.reader` calls would have produced),
* `MainWindow.update_inst` (the selection-changed handler),
* `MainWindow.find_inst` (VISA discovery; the resource manager, instruments
  and the JSON config files are modelled by explicit environment values, and
  the side effects — connection handling, console prints, button creation —
  are recorded as a trace of abstract operations).

Locale-dependent number formatting (Python `format(n, 'n')` after
`locale.setlocale(LC_ALL, '')`) is modelled by `formatLocN sep n`, where
`sep` is the thousands separator of whatever locale the process started
under (the empty string under the C locale).
-/

/-- An RGBA colour, as passed to `QColor(r, g, b, a)`. -/
structure Color where
  r : Nat
  g : Nat
  b : Nat
  a : Nat
deriving DecidableEq, Repr

/-- Semi-transparent Material indigo used for message rows (`QColor(33, 150, 243, 64)`). -/
def msgColor : Color := ⟨33, 150, 243, 64⟩

/-- Semi-transparent Material green used for `"Pass"` (`QColor(76, 175, 80, 64)`). -/
def passColor : Color := ⟨76, 175, 80, 64⟩

/-- Semi-transparent Material red used for `"Fail"` (`QColor(244, 67, 54, 64)`). -/
def failColor : Color := ⟨244, 67, 54, 64⟩

/-- A `QTableWidgetItem`: its text and its optional background colour. -/
structure Cell where
  text : String
  background : Option Color
deriving DecidableEq, Repr

/-- A table row: one optional item per column.  The table has three columns
(`Test`, `Result`, `Notes`); a `none` entry is a cell for which no
`QTableWidgetItem` was ever set (Qt `item(row, col)` then returns null). -/
abbrev TableRow := List (Option Cell)

/-- `is_msg_row`: set when any field of the incoming row data literally
equals `"Msg"` (the first loop of `add_data_to_table`). -/
def isMsgRow (rowData : List String) : Bool :=
  rowData.any (fun d => d == "Msg")

/-- The background colour assigned to the item placed in column `colIndex`
for field text `dataItem`, given whether the row was classified as a message
row.  Column 1 is `Result`, column 2 is `Notes`. -/
def cellBackground (isMsg : Bool) (colIndex : Nat) (dataItem : String) : Option Color :=
  if colIndex == 1 then
    if isMsg then some msgColor
    else if dataItem == "Pass" then some passColor
    else if dataItem == "Fail" then some failColor
    else none
  else if colIndex == 2 then
    if isMsg then some msgColor
    else none
  else none

/-- The item created for column `colIndex` of a row. -/
def mkCell (isMsg : Bool) (colIndex : Nat) (dataItem : String) : Cell :=
  { text := dataItem, background := cellBackground isMsg colIndex dataItem }

/-- The row produced by `add_data_to_table` for `rowData`: `insertRow` creates
three empty cells, then `setItem(row, col_index, item)` fills column
`col_index` for each field (a `setItem` beyond the three configured columns is
a Qt no-op, and columns beyond `rowData.length` stay empty). -/
def mkRow (rowData : List String) : TableRow :=
  (List.range 3).map fun c => (rowData.get? c).map (mkCell (isMsgRow rowData) c)

/-- The state of the result table together with the two class-level counters
of `MainWindow`. -/
structure TableState where
  rows : List TableRow
  messagesCount : Nat
  invalidCount : Nat
deriving DecidableEq, Repr

/-- `MainWindow.add_data_to_table(row_data)`: append one row built from
`row_data`; `messages_count` is incremented once per field equal to `"Msg"`. -/
def add_data_to_table (t : TableState) (rowData : List String) : TableState :=
  { rows := t.rows ++ [mkRow rowData]
    messagesCount := t.messagesCount + rowData.countP (fun d => d == "Msg")
    invalidCount := t.invalidCount }

/-- The sort key used by `sortItems(0, Qt.AscendingOrder)`: the text of the
item in column 0 (rows produced from at least one CSV field always have a
column-0 item). -/
def rowKey (r : TableRow) : String :=
  match r.headD none with
  | some c => c.text
  | none => ""

/-- Boolean comparison of rows by their column-0 text. -/
def rowLE (a b : TableRow) : Bool :=
  decide (rowKey a ≤ rowKey b)

/-- The whole-window UI state the claims observe: the table, the detail pane
(`inst_textbox`), the status bar, and the class attribute `csv_file_name`. -/
structure UIState where
  table : TableState
  instTextbox : String
  statusBar : String
  csvFileName : Option String
deriving DecidableEq, Repr

/-- `l` starts with `p` (character lists). -/
def listStartsWith : List Char → List Char → Bool
  | _, [] => true
  | [], _ :: _ => false
  | c :: cs, p :: ps => c == p && listStartsWith cs ps

/-- `p` occurs as a contiguous sublist of `l`. -/
def containsSub : List Char → List Char → Bool
  | [], p => listStartsWith [] p
  | c :: cs, p => listStartsWith (c :: cs) p || containsSub cs p

/-- Python `pat in s` on strings: substring containment. -/
def strContains (s pat : String) : Bool :=
  containsSub s.data pat.data

/-- Python `f"{x}"` for an `Optional[str]`: `None` prints as `"None"`. -/
def optStr : Option String → String
  | none => "None"
  | some s => s

/-- Split a digit list (least significant first) into groups of three. -/
def chunk3 : List Char → List (List Char)
  | [] => []
  | [a] => [[a]]
  | [a, b] => [[a, b]]
  | a :: b :: c :: rest => [a, b, c] :: chunk3 rest

/-- Python `format(n, 'n')`: the decimal digits of `n` grouped in threes from
the right, joined by the locale thousands separator `sep` (empty under the C
locale, `","` under e.g. `en_US`). -/
def formatLocN (sep : String) (n : Nat) : String :=
  let parts := (chunk3 (Nat.repr n).data.reverse).map fun g => String.mk g.reverse
  String.intercalate sep parts.reverse

/-- Right-align `s` in a field of width `w` with spaces (Python `{x:8n}`). -/
def padLeft (w : Nat) (s : String) : String :=
  String.mk (List.replicate (w - s.length) ' ') ++ s

/-- `os.path.basename` for POSIX-style paths: the part after the last `/`. -/
def basename (p : String) : String :=
  (p.splitOn "/").getLastD p

/-- An exception raised inside the `with open(...)` block, after the listed
records were already parsed and added: the categories of the `except` clauses
of `import_table_from_csv`. -/
inductive ReadFailure where
  | csvError (lineNum : Nat) (msg : String)
  | valueError (msg : String)
  | otherError (msg : String)
deriving DecidableEq, Repr

/-- What the Python `open` + `csv.reader` iteration would deliver:
either the `open` raises `FileNotFoundError`, or the file opens and the
reader yields a list of records, optionally followed by an exception raised
while the import loop was consuming the reader. -/
inductive FileRead where
  | notFound (msg : String)
  | content (recs : List (List String)) (fail : Option ReadFailure)
deriving DecidableEq, Repr

/-- The `error_msg` string each `except` clause builds. -/
def errorMsgOf : ReadFailure → String
  | ReadFailure.csvError lineNum msg =>
      "Error reading CSV file at line " ++ Nat.repr lineNum ++ ": " ++ msg
  | ReadFailure.valueError msg => "ValueError: " ++ msg
  | ReadFailure.otherError msg => "Exception: " ++ msg

/-- The text every `except` clause puts in the detail pane. -/
def errBox (name em : String) : String :=
  "ERROR! File: \x27" ++ name ++ "\x27\n\n- " ++ em

/-- The table as freshly cleared by `clearContents` / `setRowCount(0)` with
both counters reset to zero. -/
def clearedTable : TableState :=
  { rows := [], messagesCount := 0, invalidCount := 0 }

/-- `MainWindow.import_table_from_csv` for a chosen `fileName`, with the file
system and CSV parse modelled by `fr`.  The transient `Loading file ...`
messages are overwritten in every branch and hence not part of the final
state.  On `FileNotFoundError` the table was never touched (the `open` call
precedes `clearContents`); on a mid-file failure the rows added before the
exception remain (the sort and success report are skipped); on success the
rows are sorted ascending by column 0 and the total is reported. -/
def import_table_from_csv (sep : String) (ui : UIState) (fileName : String)
    (fr : FileRead) : UIState :=
  let name := basename fileName
  match fr with
  | FileRead.notFound msg =>
      let em := "File not found: " ++ msg
      { ui with csvFileName := some name, instTextbox := errBox name em, statusBar := em }
  | FileRead.content recs fail =>
      let t := recs.foldl add_data_to_table clearedTable
      match fail with
      | some f =>
          let em := errorMsgOf f
          { ui with csvFileName := some name, table := t,
                    instTextbox := errBox name em, statusBar := em }
      | none =>
          let sorted := List.mergeSort t.rows rowLE
          let total := sorted.length
          { ui with csvFileName := some name
                    table := { t with rows := sorted }
                    instTextbox :=
                      "File: \x27" ++ name ++ "\x27 successfully imported\n\n- Total records:   "
                        ++ padLeft 8 (formatLocN sep total) ++ "\n"
                    statusBar :=
                      "File: \x27" ++ name ++ "\x27. Total records: "
                        ++ formatLocN sep total ++ "." }

/-- Qt `item(row, col)`: the item at that position, or `none` when the row is
out of range or no item was ever set there. -/
def tableItem (t : TableState) (r c : Nat) : Option Cell :=
  match t.rows.get? r with
  | none => none
  | some row => row.getD c none

/-- The Python `AttributeError` message raised by `.text()` on a null item. -/
def noneTextError : String :=
  "AttributeError: \x27NoneType\x27 object has no attribute \x27text\x27"

/-- `MainWindow.update_inst`, the selection-changed handler.
`selectedRows` is the list of selected row indices (`selectedRows()`);
with an empty selection nothing happens.  The handler reads the `Notes`
(column 2) and `Result` (column 1) items of the first selected row and calls
`.text()` on them: a missing item is a null reference and the call raises an
`AttributeError` that no handler catches, modelled by `Except.error`.
For a `Result` containing `"Msg"` the detail pane gets the synthesized
message block and the handler returns early, leaving the status bar
untouched; otherwise the pane shows the `Notes` text verbatim and the
status bar is rewritten. -/
def update_inst (sep : String) (ui : UIState) (selectedRows : List Nat) :
    Except String UIState :=
  match selectedRows with
  | [] => Except.ok ui
  | r :: _ =>
    match tableItem ui.table r 2 with
    | none => Except.error noneTextError
    | some notesItem =>
      let packetCell := notesItem.text
      match tableItem ui.table r 1 with
      | none => Except.error noneTextError
      | some dirItem =>
        let dirCell := dirItem.text
        if strContains dirCell "Msg" then
          Except.ok { ui with instTextbox := "Message:\n- " ++ packetCell }
        else
          Except.ok { ui with
            instTextbox := packetCell
            statusBar :=
              "File: \x27" ++ optStr ui.csvFileName ++ "\x27, Selected record: "
                ++ formatLocN sep (r + 1) ++ " of "
                ++ formatLocN sep ui.table.rows.length ++ "." }

/-! ## Instrument discovery (`MainWindow.find_inst`) -/

/-- Python `s.replace(' ', '_')` at the character level. -/
def pyReplaceSpace (l : List Char) : List Char :=
  l.map fun c => if c == ' ' then '_' else c

/-- Python `s.replace(':', '')` at the character level. -/
def pyRemoveColon (l : List Char) : List Char :=
  l.filter fun c => c != ':'

/-- Python `s.split(',')` at the character level (never empty; an empty
input yields one empty field, exactly as in Python). -/
def splitComma : List Char → List (List Char)
  | [] => [[]]
  | c :: cs =>
    match splitComma cs with
    | [] => [[]]
    | h :: t => if c == ',' then [] :: h :: t else (c :: h) :: t

/-- The JSON config object: `data.get("connect")`, `data.get("id")`,
`data.get("close")` — `dict.get` yields `None` for a missing key. -/
structure JsonCfg where
  connect : Option String
  id : Option String
  close : Option String
deriving DecidableEq, Repr

/-- The selector control created for a found instrument, together with the
values its click handler would pass to `select_inst`. -/
structure Button where
  instId : String
  connectCmd : Option String
  idCmd : Option String
  closeCmd : Option String
  label : String
deriving DecidableEq, Repr

/-- One observable side effect of probing an instrument: VISA calls, console
prints, the config-file existence check and read, and button creation. -/
inductive Op where
  | openConn (addr : String)
  | query (cmd : String)
  | write (cmd : String)
  | closeConn
  | checkFile (name : String)
  | readJson (name : String)
  | log (msg : String)
  | makeButton (label : String)
deriving DecidableEq, Repr

deriving instance DecidableEq for Except

/-- How one VISA instrument behaves when probed: whether `open_resource`
raises, and what `query("*IDN?")` returns or raises. -/
structure InstEnv where
  openErr : Option String
  idn : Except String String
deriving DecidableEq, Repr

/-- The file system seen by discovery: for each existing config file name,
the result of `json.load` on it (`Except.error` for malformed JSON). -/
abbrev ConfigFS := List (String × Except String JsonCfg)

/-- The message of a Python `IndexError` from list subscripting. -/
def indexErrorMsg : String := "Exception: list index out of range"

/-- Drop leading whitespace characters. -/
def dropLeadingWS : List Char → List Char
  | [] => []
  | c :: cs => if c.isWhitespace then dropLeadingWS cs else c :: cs

/-- Python `s.strip()`: remove leading and trailing whitespace (modelled for
the ASCII whitespace of IDN responses). -/
def pyStrip (s : String) : String :=
  String.mk (dropLeadingWS (dropLeadingWS s.data.reverse).reverse)

/-- `json_filename = f"{fn_inst_list[0]}_{fn_inst_list[1]}.json"` where
`fn_inst_list` is the stripped identity with spaces replaced by underscores
and colons removed, split on commas. -/
def derivedJsonFilename (instId : String) : String :=
  let fnList := splitComma (pyRemoveColon (pyReplaceSpace instId.data))
  String.mk (fnList.getD 0 []) ++ "_" ++ String.mk (fnList.getD 1 []) ++ ".json"

/-- The button label
`f"{inst_list[0]} {inst_list[1]}\nS/N: {inst_list[2]}\nVer: {inst_list[3]}"`
built from the identity split on commas. -/
def buttonLabel (instId : String) : String :=
  let instList := splitComma instId.data
  String.mk (instList.getD 0 []) ++ " " ++ String.mk (instList.getD 1 [])
    ++ "\nS/N: " ++ String.mk (instList.getD 2 [])
    ++ "\nVer: " ++ String.mk (instList.getD 3 [])

/-- The body of the `for item in inst_list:` loop of `find_inst` for one
resource address, returning the trace of operations it performs and the
selector buttons it adds (one on full success, none otherwise).  Every
exception — from `open_resource`, from the query, a Python `IndexError`
from subscripting the comma-split identity, or a JSON parse error — is
caught by the per-item `except Exception` clause, which prints
`f"Exception: {e}"`; the loop then moves on.  Note the order: the unlock
write (`:KEY:FORCe`) and `inst.close()` happen immediately after the
identity query, before the config filename is derived or the file is
consulted. -/
def probeInst (fs : ConfigFS) (env : InstEnv) (addr : String) :
    List Op × List Button :=
  match env.openErr with
  | some e => ([Op.openConn addr, Op.log ("Exception: " ++ e)], [])
  | none =>
    match env.idn with
    | Except.error e =>
        ([Op.openConn addr, Op.query "*IDN?", Op.log ("Exception: " ++ e)], [])
    | Except.ok raw =>
      let instId := pyStrip raw
      let pre := [Op.openConn addr, Op.query "*IDN?",
                  Op.write ":KEY:FORCe", Op.closeConn]
      let fnList := splitComma (pyRemoveColon (pyReplaceSpace instId.data))
      if fnList.length < 2 then
        (pre ++ [Op.log indexErrorMsg], [])
      else
        let jsonFilename := derivedJsonFilename instId
        let pre2 := pre ++ [Op.log ("JSON filename: " ++ jsonFilename),
                            Op.checkFile jsonFilename]
        match List.lookup jsonFilename fs with
        | none =>
            (pre2 ++ [Op.log ("Configuration file " ++ jsonFilename ++ " not found.")], [])
        | some (Except.error e) =>
            (pre2 ++ [Op.readJson jsonFilename, Op.log ("Exception: " ++ e)], [])
        | some (Except.ok data) =>
          let pre3 := pre2 ++ [Op.readJson jsonFilename,
            Op.log ("Connect Command: " ++ optStr data.connect),
            Op.log ("ID Command: " ++ optStr data.id),
            Op.log ("Close Command: " ++ optStr data.close)]
          let instList := splitComma instId.data
          if instList.length < 4 then
            (pre3 ++ [Op.log indexErrorMsg], [])
          else
            let label := buttonLabel instId
            (pre3 ++ [Op.makeButton label],
             [{ instId := instId, connectCmd := data.connect, idCmd := data.id,
                closeCmd := data.close, label := label }])

/-- `MainWindow.find_inst`: the previous buttons are discarded, then each
resource address from `list_resources()` is probed in order; traces and
created buttons accumulate left to right. -/
def find_inst (fs : ConfigFS) : List (String × InstEnv) → List Op × List Button
  | [] => ([], [])
  | (addr, env) :: rest =>
      let p := probeInst fs env addr
      let r := find_inst fs rest
      (p.1 ++ r.1, p.2 ++ r.2)

/-! ## Helper lemmas -/

theorem foldl_add_rows (recs : List (List String)) :
    ∀ t : TableState, (List.foldl add_data_to_table t recs).rows = t.rows ++ recs.map mkRow := by
  induction recs with
  | nil => intro t; simp
  | cons r rs ih =>
      intro t
      simp [List.foldl_cons, ih, add_data_to_table, List.append_assoc]

theorem foldl_add_invalid (recs : List (List String)) :
    ∀ t : TableState, (List.foldl add_data_to_table t recs).invalidCount = t.invalidCount := by
  induction recs with
  | nil => intro t; rfl
  | cons r rs ih => intro t; simp [List.foldl_cons, ih, add_data_to_table]

theorem foldl_add_messages (recs : List (List String)) :
    ∀ t : TableState, (List.foldl add_data_to_table t recs).messagesCount
      = t.messagesCount + (recs.map (fun r => r.countP (fun d => d == "Msg"))).sum := by
  induction recs with
  | nil => intro t; simp
  | cons r rs ih =>
      intro t
      simp [List.foldl_cons, ih, add_data_to_table]
      omega

theorem rowLE_trans (a b c : TableRow) : rowLE a b → rowLE b c → rowLE a c := by
  simp only [rowLE, decide_eq_true_eq]
  exact le_trans

theorem rowLE_total (a b : TableRow) : rowLE a b || rowLE b a := by
  simp only [rowLE, Bool.or_eq_true, decide_eq_true_eq]
  exact le_total _ _

/-- The table state a successful import produces. -/
theorem import_success_rows (sep : String) (ui : UIState) (name : String)
    (recs : List (List String)) :
    (import_table_from_csv sep ui name (FileRead.content recs none)).table.rows
      = List.mergeSort (recs.map mkRow) rowLE := by
  simp [import_table_from_csv, foldl_add_rows, clearedTable]


/-! ## Shared concrete states for witnesses and counterexamples -/

/-- The window state right after startup. -/
def uiInit : UIState :=
  { table := clearedTable, instTextbox := "Calimate\nVersion 0.1"
    statusBar := "Welcome to Calimate!", csvFileName := none }

/-- A two-record well-formed CSV, out of order on column 0. -/
def recsEx : List (List String) := [["b", "Pass", "x"], ["a", "Fail", "y"]]

/-! ## Claims -/

/-- **C1** (corrected, counterexample): a malformed CSV aborting at line 2
after one good record does report the failing line in the status bar and
the detail pane, but the table is NOT left empty: the row parsed before the
error is still there.  The claim that a failing import "leaves the result
table cleared (empty)" is therefore false on the code. -/
theorem C1_counterexample :
    (import_table_from_csv "," uiInit "bad.csv"
        (FileRead.content [["a", "Pass", "x"]]
          (some (ReadFailure.csvError 2 "unterminated quoted field")))).table.rows.length = 1
    ∧ (import_table_from_csv "," uiInit "bad.csv"
        (FileRead.content [["a", "Pass", "x"]]
          (some (ReadFailure.csvError 2 "unterminated quoted field")))).statusBar
        = "Error reading CSV file at line 2: unterminated quoted field"
    ∧ (import_table_from_csv "," uiInit "bad.csv"
        (FileRead.content [["a", "Pass", "x"]]
          (some (ReadFailure.csvError 2 "unterminated quoted field")))).table.rows ≠ [] := by
  refine ⟨rfl, rfl, ?_⟩
  decide

/-- **C1** (corrected, amended): every failing import is caught (the model
is a total function: no exception escapes), produces the error text in both
the detail pane and the status bar, and a `csv.Error` message names the
failing line number.  But the table is not cleared: a failure raised while
reading leaves exactly the rows added before the exception, and a
`FileNotFoundError` (raised by `open`, before `clearContents`) leaves the
previous table contents untouched. -/
theorem C1_theorem :
    (∀ (sep : String) (ui : UIState) (name : String) (recs : List (List String))
        (f : ReadFailure),
      (import_table_from_csv sep ui name (FileRead.content recs (some f))).statusBar
          = errorMsgOf f
      ∧ (import_table_from_csv sep ui name (FileRead.content recs (some f))).instTextbox
          = errBox (basename name) (errorMsgOf f)
      ∧ (import_table_from_csv sep ui name (FileRead.content recs (some f))).table.rows
          = recs.map mkRow)
    ∧ (∀ (sep : String) (ui : UIState) (name msg : String),
      (import_table_from_csv sep ui name (FileRead.notFound msg)).statusBar
          = "File not found: " ++ msg
      ∧ (import_table_from_csv sep ui name (FileRead.notFound msg)).instTextbox
          = errBox (basename name) ("File not found: " ++ msg)
      ∧ (import_table_from_csv sep ui name (FileRead.notFound msg)).table = ui.table)
    ∧ (∀ (lineNum : Nat) (msg : String),
      errorMsgOf (ReadFailure.csvError lineNum msg)
          = "Error reading CSV file at line " ++ Nat.repr lineNum ++ ": " ++ msg) := by
  refine ⟨?_, ?_, ?_⟩
  · intro sep ui name recs f
    refine ⟨rfl, rfl, ?_⟩
    simp [import_table_from_csv, foldl_add_rows, clearedTable]
  · intro sep ui name msg
    exact ⟨rfl, rfl, rfl⟩
  · intro lineNum msg
    rfl

/-- **C2** (confirmed): importing a well-formed CSV of `N` 3-field records
replaces the table with exactly `N` rows — one per record, no header
skipping — which are exactly the rows built from the records (a permutation
of them), sorted ascending by the column-0 text; the invalid counter is
reset to zero, the message counter is reset and then counts only the new
records, and the status bar reports the total record count. -/
theorem C2_theorem (sep name : String) (ui : UIState) (recs : List (List String))
    (_hwf : ∀ r ∈ recs, r.length = 3) :
    (import_table_from_csv sep ui name (FileRead.content recs none)).table.rows.length
        = recs.length
    ∧ (import_table_from_csv sep ui name (FileRead.content recs none)).table.rows.Perm
        (recs.map mkRow)
    ∧ (import_table_from_csv sep ui name (FileRead.content recs none)).table.rows.Pairwise
        (fun a b => rowLE a b = true)
    ∧ (import_table_from_csv sep ui name (FileRead.content recs none)).table.invalidCount = 0
    ∧ (import_table_from_csv sep ui name (FileRead.content recs none)).table.messagesCount
        = (recs.map (fun r => r.countP (fun d => d == "Msg"))).sum
    ∧ (import_table_from_csv sep ui name (FileRead.content recs none)).statusBar
        = "File: \x27" ++ basename name ++ "\x27. Total records: "
            ++ formatLocN sep recs.length ++ "." := by
  refine ⟨?_, ?_, ?_, ?_, ?_, ?_⟩
  · rw [import_success_rows]; simp
  · rw [import_success_rows]; exact List.mergeSort_perm _ _
  · rw [import_success_rows]
    exact List.sorted_mergeSort rowLE_trans rowLE_total _
  · simp [import_table_from_csv, foldl_add_invalid, clearedTable]
  · simp [import_table_from_csv, foldl_add_messages, clearedTable]
  · simp [import_table_from_csv, foldl_add_rows, clearedTable]

/-- **C2** witness: the theorem at a concrete two-record file. -/
theorem C2_witness :
    (∀ r ∈ recsEx, r.length = 3)
    ∧ (import_table_from_csv "," uiInit "good.csv"
        (FileRead.content recsEx none)).table.rows.length = recsEx.length :=
  ⟨by decide, ( C2_theorem "," "good.csv" uiInit recsEx (by decide)).1⟩

/-- **C7** (confirmed): a second successful import fully replaces the rows
of the first — the row count afterwards is the record count of the second file,
whatever was imported before. -/
theorem C7_theorem (sep n1 n2 : String) (ui : UIState) (r1 r2 : List (List String)) :
    (import_table_from_csv sep
        (import_table_from_csv sep ui n1 (FileRead.content r1 none))
        n2 (FileRead.content r2 none)).table.rows.length = r2.length := by
  rw [import_success_rows]; simp

/-- A window state with one selected-about-to-be message row, a file name on
record, and the startup status-bar text still showing. -/
def uiSel : UIState :=
  { table := { rows := [mkRow ["t", "Msg", "hello"]], messagesCount := 1, invalidCount := 0 }
    instTextbox := "", statusBar := "Welcome to Calimate!", csvFileName := some "f.csv" }

/-- The status bar visible after a selection event: the bar of the updated state
on success, or the exception text. -/
def statusAfter (x : Except String UIState) : String :=
  match x with
  | Except.ok u => u.statusBar
  | Except.error e => e

/-- **C3** (corrected, counterexample): selecting the message row of `uiSel`
does show the synthesized block, but the handler returns before the
status-bar update, so the bar still shows the old text rather than the
claimed "selected index of total" message.  The claim that the status bar
is updated on every selection change is therefore false on the code. -/
theorem C3_counterexample :
    update_inst "," uiSel [0] = Except.ok { uiSel with instTextbox := "Message:\n- hello" }
    ∧ statusAfter (update_inst "," uiSel [0]) = "Welcome to Calimate!"
    ∧ "Welcome to Calimate!"
        ≠ "File: \x27f.csv\x27, Selected record: " ++ formatLocN "," 1 ++ " of "
            ++ formatLocN "," 1 ++ "." := by
  refine ⟨rfl, rfl, ?_⟩
  decide

/-- **C3** (corrected, amended): on a selection change where both the
`Result` and `Notes` items exist, a `Result` containing `"Msg"` yields the
synthesized `Message:` block with the status bar left unchanged (the handler
returns early); otherwise the `Notes` text is shown verbatim and the status
bar is rewritten to the 1-indexed selected record out of the total row
count, both numbers grouped with the locale thousands separator. -/
theorem C3_theorem (sep : String) (ui : UIState) (r : Nat) (notesC dirC : Cell)
    (h2 : tableItem ui.table r 2 = some notesC)
    (h1 : tableItem ui.table r 1 = some dirC) :
    (strContains dirC.text "Msg" = true →
      update_inst sep ui [r]
        = Except.ok { ui with instTextbox := "Message:\n- " ++ notesC.text })
    ∧ (strContains dirC.text "Msg" = false →
      update_inst sep ui [r]
        = Except.ok { ui with
            instTextbox := notesC.text
            statusBar := "File: \x27" ++ optStr ui.csvFileName ++ "\x27, Selected record: "
              ++ formatLocN sep (r + 1) ++ " of "
              ++ formatLocN sep ui.table.rows.length ++ "." }) := by
  constructor
  · intro h
    simp [update_inst, h1, h2, h]
  · intro h
    simp [update_inst, h1, h2, h]

/-- **C3** witness: the theorem at the concrete message row of `uiSel`. -/
theorem C3_witness :
    tableItem uiSel.table 0 2 = some (Cell.mk "hello" (some msgColor))
    ∧ tableItem uiSel.table 0 1 = some (Cell.mk "Msg" (some msgColor))
    ∧ (strContains "Msg" "Msg" = true →
        update_inst "," uiSel [0]
          = Except.ok { uiSel with instTextbox := "Message:\n- hello" }) :=
  ⟨rfl, rfl, ( C3_theorem "," uiSel 0 (Cell.mk "hello" (some msgColor))
      (Cell.mk "Msg" (some msgColor)) rfl rfl).1⟩

/-- Behaviour of the `Result`-column highlight for non-message rows. -/
theorem cellBackground_result (d : String) :
    (cellBackground false 1 d = some passColor ↔ d = "Pass")
    ∧ (cellBackground false 1 d = some failColor ↔ d = "Fail")
    ∧ (d ≠ "Pass" → d ≠ "Fail" → cellBackground false 1 d = none) := by
  by_cases hp : d = "Pass"
  · subst hp; decide
  · by_cases hf : d = "Fail"
    · subst hf; decide
    · have hbg : cellBackground false 1 d = none := by
        simp [cellBackground, hp, hf]
      simp [hbg, hp, hf]

/-- **C5** (confirmed): a freshly added row is classified as a message row
exactly when some field literally equals `"Msg"`; a message row carries the
message colour on both its `Result` and `Notes` items whatever the `Result`
text is; a non-message row is green on `Result` exactly for `"Pass"`, red
exactly for `"Fail"`, unhighlighted otherwise, and its `Notes` item carries
no highlight. -/
theorem C5_theorem (rowData : List String) (t : TableState) (c2 c3 : Cell)
    (h1 : (mkRow rowData).getD 1 none = some c2)
    (h2 : (mkRow rowData).getD 2 none = some c3) :
    (add_data_to_table t rowData).rows.getLastD [] = mkRow rowData
    ∧ (isMsgRow rowData = true ↔ "Msg" ∈ rowData)
    ∧ (isMsgRow rowData = true →
        c2.background = some msgColor ∧ c3.background = some msgColor)
    ∧ (isMsgRow rowData = false →
        (c2.background = some passColor ↔ c2.text = "Pass")
        ∧ (c2.background = some failColor ↔ c2.text = "Fail")
        ∧ (c2.text ≠ "Pass" → c2.text ≠ "Fail" → c2.background = none)
        ∧ c3.background = none) := by
  have e1 : (rowData.get? 1).map (mkCell (isMsgRow rowData) 1) = some c2 := h1
  have e2 : (rowData.get? 2).map (mkCell (isMsgRow rowData) 2) = some c3 := h2
  refine ⟨?_, ?_, ?_, ?_⟩
  · simp [add_data_to_table]
  · simp [isMsgRow, List.any_eq_true, beq_iff_eq]
  · intro hm
    rw [hm] at e1 e2
    cases hq1 : rowData.get? 1 with
    | none => rw [hq1] at e1; cases e1
    | some d1 =>
        cases hq2 : rowData.get? 2 with
        | none => rw [hq2] at e2; cases e2
        | some d2 =>
            rw [hq1] at e1; rw [hq2] at e2
            cases e1; cases e2
            simp [mkCell, cellBackground]
  · intro hm
    rw [hm] at e1 e2
    cases hq1 : rowData.get? 1 with
    | none => rw [hq1] at e1; cases e1
    | some d1 =>
        cases hq2 : rowData.get? 2 with
        | none => rw [hq2] at e2; cases e2
        | some d2 =>
            rw [hq1] at e1; rw [hq2] at e2
            cases e1; cases e2
            refine ⟨(cellBackground_result d1).1, (cellBackground_result d1).2.1,
              (cellBackground_result d1).2.2, ?_⟩
            simp [mkCell, cellBackground]

/-- **C5** witness: the theorem at a concrete `Pass` row. -/
theorem C5_witness :
    (mkRow ["t", "Pass", "note"]).getD 1 none = some (Cell.mk "Pass" (some passColor))
    ∧ (mkRow ["t", "Pass", "note"]).getD 2 none = some (Cell.mk "note" none)
    ∧ (isMsgRow ["t", "Pass", "note"] = false →
        ((Cell.mk "Pass" (some passColor)).background = some passColor
            ↔ (Cell.mk "Pass" (some passColor)).text = "Pass")
        ∧ ((Cell.mk "Pass" (some passColor)).background = some failColor
            ↔ (Cell.mk "Pass" (some passColor)).text = "Fail")
        ∧ ((Cell.mk "Pass" (some passColor)).text ≠ "Pass" →
            (Cell.mk "Pass" (some passColor)).text ≠ "Fail" →
            (Cell.mk "Pass" (some passColor)).background = none)
        ∧ (Cell.mk "note" none).background = none) :=
  ⟨rfl, rfl, ( C5_theorem ["t", "Pass", "note"] clearedTable
      (Cell.mk "Pass" (some passColor)) (Cell.mk "note" none) rfl rfl).2.2.2⟩

/-- A table whose single row came from a 2-field CSV record: the `Notes`
cell was never set. -/
def uiShort : UIState :=
  { table := { rows := [mkRow ["t", "Pass"]], messagesCount := 0, invalidCount := 0 }
    instTextbox := "", statusBar := "", csvFileName := some "short.csv" }

/-- **C9** (confirmed): the selection handler is only safe when the selected
row has items in both the `Result` and `Notes` columns.  A row whose `Notes`
item is missing makes `update_inst` hit the `AttributeError` branch, which
nothing in the handler catches; and a row built from a CSV record of fewer
than 3 fields has exactly such a missing `Notes` item. -/
theorem C9_theorem :
    (∀ (sep : String) (ui : UIState) (r : Nat) (row : TableRow),
        ui.table.rows.get? r = some row → row.getD 2 none = none →
        update_inst sep ui [r] = Except.error noneTextError)
    ∧ (∀ rec : List String, rec.length < 3 → (mkRow rec).getD 2 none = none) := by
  constructor
  · intro sep ui r row hr hcell
    simp only [update_inst, tableItem, hr, hcell]
  · intro rec hlen
    have hq : rec.get? 2 = none := by
      rw [List.get?_eq_none]
      omega
    show (rec.get? 2).map (mkCell (isMsgRow rec) 2) = none
    rw [hq]
    rfl

/-- **C9** witness: the theorem at the concrete 2-field row of `uiShort`. -/
theorem C9_witness :
    uiShort.table.rows.get? 0 = some (mkRow ["t", "Pass"])
    ∧ (mkRow ["t", "Pass"]).getD 2 none = none
    ∧ update_inst "," uiShort [0] = Except.error noneTextError :=
  ⟨rfl, rfl, C9_theorem.1 "," uiShort 0 (mkRow ["t", "Pass"]) rfl rfl⟩

/-! ## Discovery helper lemmas -/

theorem splitComma_ne_nil (l : List Char) : splitComma l ≠ [] := by
  cases l with
  | nil => simp [splitComma]
  | cons c cs =>
      cases h : splitComma cs with
      | nil => simp [splitComma, h]
      | cons hd tl =>
          simp only [splitComma, h]
          split <;> simp

theorem length_splitComma_cons (c : Char) (cs : List Char) :
    (splitComma (c :: cs)).length
      = if c == ',' then (splitComma cs).length + 1 else (splitComma cs).length := by
  cases h : splitComma cs with
  | nil => exact absurd h (splitComma_ne_nil cs)
  | cons hd tl =>
      by_cases hc : c == ','
      · simp [splitComma, h, hc]
      · simp [splitComma, h, hc]

/-- The `replace` calls that build the config filename do not touch commas,
so the comma-split of the cleaned identity has as many fields as the
comma-split of the identity itself. -/
theorem length_splitComma_clean (l : List Char) :
    (splitComma (pyRemoveColon (pyReplaceSpace l))).length = (splitComma l).length := by
  induction l with
  | nil => rfl
  | cons c cs ih =>
      by_cases hsp : c = ' '
      · subst hsp
        have hstep : pyRemoveColon (pyReplaceSpace (' ' :: cs))
            = '_' :: pyRemoveColon (pyReplaceSpace cs) := by
          simp [pyReplaceSpace, pyRemoveColon]
        rw [hstep, length_splitComma_cons, length_splitComma_cons, ih]
        simp
      · by_cases hcol : c = ':'
        · subst hcol
          have hstep : pyRemoveColon (pyReplaceSpace (':' :: cs))
              = pyRemoveColon (pyReplaceSpace cs) := by
            simp [pyReplaceSpace, pyRemoveColon]
          rw [hstep, length_splitComma_cons, ih]
          simp
        · have hstep : pyRemoveColon (pyReplaceSpace (c :: cs))
              = c :: pyRemoveColon (pyReplaceSpace cs) := by
            simp [pyReplaceSpace, pyRemoveColon, hsp, hcol]
          rw [hstep, length_splitComma_cons, length_splitComma_cons, ih]

/-- Matches the unlock write in a trace. -/
def isUnlockOp : Op → Bool
  | Op.write c => c == ":KEY:FORCe"
  | _ => false

/-- Matches the config-file existence check in a trace. -/
def isCheckFileOp : Op → Bool
  | Op.checkFile _ => true
  | _ => false

/-- Matches the connection close in a trace. -/
def isCloseOp : Op → Bool
  | Op.closeConn => true
  | _ => false

/-- Matches the selector-control creation in a trace. -/
def isMakeButtonOp : Op → Bool
  | Op.makeButton _ => true
  | _ => false

/-- The per-instrument step order the claim asserts: the config-file check
and the descriptor construction both precede the unlock write, which in turn
precedes the connection close. -/
def claimedDiscoveryOrder (t : List Op) : Bool :=
  decide (t.findIdx isCheckFileOp < t.findIdx isUnlockOp)
  && decide (t.findIdx isMakeButtonOp < t.findIdx isUnlockOp)
  && decide (t.findIdx isUnlockOp < t.findIdx isCloseOp)

/-- A plausible Tektronix config file content. -/
def exCfg : JsonCfg := { connect := some "CONNECT", id := some "*IDN?", close := some "CLOSE" }

/-- A file system holding the config for the example instrument below. -/
def exFS : ConfigFS := [("TEKTRONIX_TDS2024B.json", Except.ok exCfg)]

/-- An instrument that opens fine and answers the identity query with a
4-field IDN string (with trailing newline, spaces and colons, as real
firmware revisions have). -/
def exEnvOk : InstEnv :=
  { openErr := none
    idn := Except.ok "TEKTRONIX,TDS2024B,C012345,CF:91.1CT FV:v22.11\n" }

/-- **C4** (corrected, counterexample): for a fully successful probe — the
config file exists, a selector control is produced — the claimed order
(config lookup and descriptor construction, then unlock, then close) does
not hold on the code: the unlock write and the close happen right after the
identity query, before the filename is even derived. -/
theorem C4_counterexample :
    claimedDiscoveryOrder (probeInst exFS exEnvOk "USB0::0x0699").1 = false
    ∧ (probeInst exFS exEnvOk "USB0::0x0699").2 ≠ [] := by
  refine ⟨?_, ?_⟩ <;> decide

/-- **C4** (corrected, amended): for every resource address whose open and
identity query succeed, with a 4-field identity and an existing, parseable
config file, discovery performs: open, identity query (response stripped),
unlock write, close — in that order — and only then derives the config
filename, checks and parses the file, and constructs the selector control
as the final step. -/
theorem C4_theorem (fs : ConfigFS) (env : InstEnv) (addr raw : String) (cfg : JsonCfg)
    (hopen : env.openErr = none) (hidn : env.idn = Except.ok raw)
    (h4 : 4 ≤ (splitComma (pyStrip raw).data).length)
    (hfs : List.lookup (derivedJsonFilename (pyStrip raw)) fs = some (Except.ok cfg)) :
    probeInst fs env addr =
      ([Op.openConn addr, Op.query "*IDN?", Op.write ":KEY:FORCe", Op.closeConn,
        Op.log ("JSON filename: " ++ derivedJsonFilename (pyStrip raw)),
        Op.checkFile (derivedJsonFilename (pyStrip raw)),
        Op.readJson (derivedJsonFilename (pyStrip raw)),
        Op.log ("Connect Command: " ++ optStr cfg.connect),
        Op.log ("ID Command: " ++ optStr cfg.id),
        Op.log ("Close Command: " ++ optStr cfg.close),
        Op.makeButton (buttonLabel (pyStrip raw))],
       [{ instId := (pyStrip raw), connectCmd := cfg.connect, idCmd := cfg.id,
          closeCmd := cfg.close, label := buttonLabel (pyStrip raw) }]) := by
  have hb := length_splitComma_clean (pyStrip raw).data
  have h2 : ¬ ((splitComma (pyRemoveColon (pyReplaceSpace (pyStrip raw).data))).length < 2) := by
    omega
  have h4n : ¬ ((splitComma (pyStrip raw).data).length < 4) := by omega
  simp only [probeInst, hopen, hidn]
  rw [if_neg h2, hfs]
  simp only [if_neg h4n]
  rfl

/-- **C4** witness: the theorem at the concrete instrument `exEnvOk`. -/
theorem C4_witness :
    exEnvOk.openErr = none
    ∧ 4 ≤ (splitComma (pyStrip "TEKTRONIX,TDS2024B,C012345,CF:91.1CT FV:v22.11\n").data).length
    ∧ (probeInst exFS exEnvOk "USB0::0x0699").2
        = [{ instId := pyStrip "TEKTRONIX,TDS2024B,C012345,CF:91.1CT FV:v22.11\n"
             connectCmd := exCfg.connect, idCmd := exCfg.id, closeCmd := exCfg.close
             label := buttonLabel (pyStrip "TEKTRONIX,TDS2024B,C012345,CF:91.1CT FV:v22.11\n") }] :=
  ⟨rfl, by decide,
    congrArg Prod.snd (C4_theorem exFS exEnvOk "USB0::0x0699"
      "TEKTRONIX,TDS2024B,C012345,CF:91.1CT FV:v22.11\n" exCfg rfl rfl (by decide) rfl)⟩

/-- **C6** (confirmed): an exception while probing one instrument (here: the
`open_resource` call raising) is caught by the per-item handler and logged
as `Exception: ...`, that instrument contributes no selector control, and
the scan goes on: with a failing instrument followed by any second
instrument, the controls produced are exactly those of the second instrument. -/
theorem C6_theorem (fs : ConfigFS) (a1 a2 e : String) (env1 env2 : InstEnv)
    (hfail : env1.openErr = some e) :
    (probeInst fs env1 a1).1 = [Op.openConn a1, Op.log ("Exception: " ++ e)]
    ∧ (probeInst fs env1 a1).2 = []
    ∧ (find_inst fs [(a1, env1), (a2, env2)]).2 = (probeInst fs env2 a2).2 := by
  refine ⟨?_, ?_, ?_⟩ <;> simp [probeInst, find_inst, hfail]

/-- **C6** witness: a timed-out instrument followed by the healthy
`exEnvOk`; the healthy instrument's single selector control survives. -/
theorem C6_witness :
    InstEnv.openErr { openErr := some "VI_ERROR_TMO", idn := Except.ok "" }
        = some "VI_ERROR_TMO"
    ∧ (find_inst exFS
        [("GPIB0::1", { openErr := some "VI_ERROR_TMO", idn := Except.ok "" }),
         ("USB0::0x0699", exEnvOk)]).2
        = (probeInst exFS exEnvOk "USB0::0x0699").2
    ∧ (probeInst exFS exEnvOk "USB0::0x0699").2.length = 1 :=
  ⟨rfl,
    (C6_theorem exFS "GPIB0::1" "USB0::0x0699" "VI_ERROR_TMO"
      { openErr := some "VI_ERROR_TMO", idn := Except.ok "" } exEnvOk rfl).2.2,
    by decide⟩

/-- **C8** (confirmed): an instrument whose derived config file does not
exist is logged (`Configuration file ... not found.`) and skipped — no
selector control, no error — and the scan simply continues with the
remaining addresses. -/
theorem C8_theorem (fs : ConfigFS) (env : InstEnv) (addr raw : String)
    (rest : List (String × InstEnv))
    (hopen : env.openErr = none) (hidn : env.idn = Except.ok raw)
    (h2 : 2 ≤ (splitComma (pyStrip raw).data).length)
    (hfs : List.lookup (derivedJsonFilename (pyStrip raw)) fs = none) :
    (probeInst fs env addr).2 = []
    ∧ (probeInst fs env addr).1
        = [Op.openConn addr, Op.query "*IDN?", Op.write ":KEY:FORCe", Op.closeConn,
           Op.log ("JSON filename: " ++ derivedJsonFilename (pyStrip raw)),
           Op.checkFile (derivedJsonFilename (pyStrip raw)),
           Op.log ("Configuration file " ++ derivedJsonFilename (pyStrip raw) ++ " not found.")]
    ∧ (find_inst fs ((addr, env) :: rest)).2 = (find_inst fs rest).2 := by
  have hb := length_splitComma_clean (pyStrip raw).data
  have h2n : ¬ ((splitComma (pyRemoveColon (pyReplaceSpace (pyStrip raw).data))).length < 2) := by
    omega
  have hp : probeInst fs env addr
      = ([Op.openConn addr, Op.query "*IDN?", Op.write ":KEY:FORCe", Op.closeConn,
          Op.log ("JSON filename: " ++ derivedJsonFilename (pyStrip raw)),
          Op.checkFile (derivedJsonFilename (pyStrip raw)),
          Op.log ("Configuration file " ++ derivedJsonFilename (pyStrip raw) ++ " not found.")],
         []) := by
    simp only [probeInst, hopen, hidn]
    rw [if_neg h2n, hfs]
    rfl
  refine ⟨by rw [hp], by rw [hp], ?_⟩
  simp [find_inst, hp]

/-- **C8** witness: a TDS9999 whose config file is absent from `exFS`,
followed by an empty remainder of the scan. -/
theorem C8_witness :
    List.lookup (derivedJsonFilename (pyStrip "TEKTRONIX,TDS9999,C9,FV1")) exFS = none
    ∧ (probeInst exFS { openErr := none, idn := Except.ok "TEKTRONIX,TDS9999,C9,FV1" }
        "USB0::0x9999").2 = [] :=
  ⟨by decide,
    (C8_theorem exFS { openErr := none, idn := Except.ok "TEKTRONIX,TDS9999,C9,FV1" }
      "USB0::0x9999" "TEKTRONIX,TDS9999,C9,FV1" [] rfl rfl (by decide) (by decide)).1⟩

/-- **C10** (confirmed): with a stripped identity of 2 or 3 comma-separated
fields, the probe derives the filename and reads the existing config, but
building the selector label subscripts identity fields 2 and 3 and raises a
Python `IndexError`, absorbed by the per-instrument handler: the instrument
is skipped with `Exception: list index out of range` as the last log and no
control is created.  With fewer than 2 fields the very filename derivation
subscripts field 1 and raises: the trace ends at the `IndexError` without
ever printing the filename or consulting the file system. -/
theorem C10_theorem (fs : ConfigFS) (env : InstEnv) (addr raw : String) (cfg : JsonCfg)
    (hopen : env.openErr = none) (hidn : env.idn = Except.ok raw) :
    (2 ≤ (splitComma (pyStrip raw).data).length →
      (splitComma (pyStrip raw).data).length < 4 →
      List.lookup (derivedJsonFilename (pyStrip raw)) fs = some (Except.ok cfg) →
      (probeInst fs env addr).2 = []
      ∧ (probeInst fs env addr).1.getLast? = some (Op.log indexErrorMsg))
    ∧ ((splitComma (pyStrip raw).data).length < 2 →
      (probeInst fs env addr).2 = []
      ∧ (probeInst fs env addr).1
          = [Op.openConn addr, Op.query "*IDN?", Op.write ":KEY:FORCe", Op.closeConn,
             Op.log indexErrorMsg]) := by
  have hb := length_splitComma_clean (pyStrip raw).data
  constructor
  · intro hge2 hlt4 hfs
    have h2n : ¬ ((splitComma (pyRemoveColon (pyReplaceSpace (pyStrip raw).data))).length < 2) := by
      omega
    have hp : probeInst fs env addr
        = ([Op.openConn addr, Op.query "*IDN?", Op.write ":KEY:FORCe", Op.closeConn,
            Op.log ("JSON filename: " ++ derivedJsonFilename (pyStrip raw)),
            Op.checkFile (derivedJsonFilename (pyStrip raw)),
            Op.readJson (derivedJsonFilename (pyStrip raw)),
            Op.log ("Connect Command: " ++ optStr cfg.connect),
            Op.log ("ID Command: " ++ optStr cfg.id),
            Op.log ("Close Command: " ++ optStr cfg.close)]
            ++ [Op.log indexErrorMsg],
           []) := by
      simp only [probeInst, hopen, hidn]
      rw [if_neg h2n, hfs]
      simp only [if_pos hlt4]
      rfl
    rw [hp]
    exact ⟨rfl, List.getLast?_concat _⟩
  · intro hlt2
    have h2y : (splitComma (pyRemoveColon (pyReplaceSpace (pyStrip raw).data))).length < 2 := by
      omega
    have hp : probeInst fs env addr
        = ([Op.openConn addr, Op.query "*IDN?", Op.write ":KEY:FORCe", Op.closeConn,
            Op.log indexErrorMsg], []) := by
      simp only [probeInst, hopen, hidn]
      rw [if_pos h2y]
      rfl
    rw [hp]
    exact ⟨rfl, rfl⟩

/-- A file system holding a config for the 3-field instrument below. -/
def exFS2 : ConfigFS := [("TEK_X.json", Except.ok exCfg)]

/-- An instrument answering with only 3 identity fields. -/
def envThreeFields : InstEnv := { openErr := none, idn := Except.ok "TEK,X,SN" }

/-- An instrument answering with a single identity field. -/
def envOneField : InstEnv := { openErr := none, idn := Except.ok "JUSTONEFIELD" }

/-- **C10** witness: a 3-field identity whose config file exists is still
skipped with the IndexError log; a 1-field identity dies before the file
system is ever consulted. -/
theorem C10_witness :
    (2 ≤ (splitComma (pyStrip "TEK,X,SN").data).length
      ∧ (splitComma (pyStrip "TEK,X,SN").data).length < 4
      ∧ List.lookup (derivedJsonFilename (pyStrip "TEK,X,SN")) exFS2
          = some (Except.ok exCfg)
      ∧ (probeInst exFS2 envThreeFields "addr1").2 = []
      ∧ (probeInst exFS2 envThreeFields "addr1").1.getLast?
          = some (Op.log indexErrorMsg))
    ∧ ((splitComma (pyStrip "JUSTONEFIELD").data).length < 2
      ∧ (probeInst [] envOneField "addr2").1
          = [Op.openConn "addr2", Op.query "*IDN?", Op.write ":KEY:FORCe", Op.closeConn,
             Op.log indexErrorMsg]) :=
  ⟨⟨by decide, by decide, by decide,
    (C10_theorem exFS2 envThreeFields "addr1" "TEK,X,SN" exCfg
      rfl rfl).1 (by decide) (by decide) (by decide)⟩,
   by decide,
   ((C10_theorem [] envOneField "addr2"
      "JUSTONEFIELD" exCfg rfl rfl).2 (by decide)).2⟩
